import Mathlib

/-!
Shallow embedding of the task-tracker backend's service layer
(`src/dto/task_dto.py`, `src/repositories/task_repository.py`,
`src/services/task_service.py`).  The document store is modelled as a list
of documents keyed by a natural-number ObjectId; marshmallow validation is
modelled as functions producing field-to-message error lists; datetimes are
modelled as integer timestamps (seconds), rendered to strings injectively.
-/

namespace TaskTracker

/-- A stored MongoDB document from the `tasks` collection.  The Mongo `_id`
is modelled as `oid : Nat`.  After validated creation every stored document
carries all of these fields (`tags` is defaulted to `[]` before insertion). -/
structure Doc where
  oid : Nat
  title : String
  description : String
  priority : String
  status : String
  due_date : Int
  created_at : Int
  tags : List String
deriving DecidableEq

/-- The document store backing `db["tasks"]`: a list of documents plus the
next ObjectId the store will generate on insertion. -/
structure Store where
  nextId : Nat
  docs : List Doc
deriving DecidableEq

/-- A raw JSON request payload as seen by `schema.load`.  Each schema load
field (`title`, `description`, `priority`, `status`, `due_date`, `tags`) is
`none` when the key is absent from the JSON object; `extraKeys` lists every
key of the object outside those six (in particular the dump-only keys
`"id"` and `"created_at"` land here, since marshmallow treats them as
unknown on load). -/
structure Payload where
  title : Option String := none
  description : Option String := none
  priority : Option String := none
  status : Option String := none
  due_date : Option Int := none
  tags : Option (List String) := none
  extraKeys : List String := []
deriving DecidableEq

/-- `validate.OneOf(["low", "medium", "high"])` in `TaskSchema.priority`. -/
def priorityEnum : List String := ["low", "medium", "high"]

/-- `validate.OneOf(["TODO", "IN_PROGRESS", "COMPLETED"])` in `TaskSchema.status`. -/
def statusEnum : List String := ["TODO", "IN_PROGRESS", "COMPLETED"]

/-- `TaskSchema.fields.keys()` in declaration order. -/
def schemaFieldNames : List String :=
  ["id", "title", "description", "priority", "status", "due_date", "created_at", "tags"]

/-- Missing-required-field errors raised by `schema.load` in full mode:
`title`, `description`, `priority`, `status`, `due_date` carry
`required=True` in `TaskSchema`. -/
def requiredErrors (p : Payload) : List (String × String) :=
  (if p.title.isNone then [("title", "Missing data for required field.")] else []) ++
  (if p.description.isNone then [("description", "Missing data for required field.")] else []) ++
  (if p.priority.isNone then [("priority", "Missing data for required field.")] else []) ++
  (if p.status.isNone then [("status", "Missing data for required field.")] else []) ++
  (if p.due_date.isNone then [("due_date", "Missing data for required field.")] else [])

/-- `OneOf` validator errors for `priority` and `status`, applied to the
fields present in the payload (in both full and partial mode). -/
def enumErrors (p : Payload) : List (String × String) :=
  (match p.priority with
   | none => []
   | some v => if v ∈ priorityEnum then [] else
       [("priority", "Must be one of: low, medium, high.")]) ++
  (match p.status with
   | none => []
   | some v => if v ∈ statusEnum then [] else
       [("status", "Must be one of: TODO, IN_PROGRESS, COMPLETED.")])

/-- Unknown-field errors: marshmallow's default `unknown=RAISE` rejects
every payload key outside the schema's load fields, including the
dump-only `id` and `created_at`. -/
def unknownErrors (p : Payload) : List (String × String) :=
  p.extraKeys.map (fun k => (k, "Unknown field."))

/-- All errors collected by `schema.load`; `forUpdate = true` is
`schema.load(data, partial=True)`, which suppresses only the
required-field checks. -/
def fieldErrors (forUpdate : Bool) (p : Payload) : List (String × String) :=
  (if forUpdate then [] else requiredErrors p) ++ enumErrors p ++ unknownErrors p

/-- The validated data produced by a successful full-mode `schema.load`. -/
structure Validated where
  title : String
  description : String
  priority : String
  status : String
  due_date : Int
  tags : List String
deriving DecidableEq

/-- `schema.load(data)` (full mode).  Succeeds exactly when no field error
is collected; when it succeeds every required field is present, so the
`getD` defaults are never used. -/
def loadFull (p : Payload) : Except (List (String × String)) Validated :=
  if fieldErrors false p = [] then
    .ok { title := p.title.getD "", description := p.description.getD "",
          priority := p.priority.getD "", status := p.status.getD "",
          due_date := p.due_date.getD 0, tags := p.tags.getD [] }
  else
    .error (fieldErrors false p)

/-- `schema.load(data, partial=True)`.  On success the validated result is
the partial field map itself (with `extraKeys = []`). -/
def loadPartial (p : Payload) : Except (List (String × String)) Payload :=
  if fieldErrors true p = [] then .ok p else .error (fieldErrors true p)

/-- `str(ObjectId)` hex digit. -/
def hexChar (n : Nat) : Char := Char.ofNat (if n < 10 then 48 + n else 87 + n)

/-- Fixed-width big-endian hex rendering, width first. -/
def toHexChars : Nat → Nat → List Char
  | 0, _ => []
  | w + 1, n => toHexChars w (n / 16) ++ [hexChar (n % 16)]

/-- `str(task["_id"])`: ObjectIds render as 24 hex characters. -/
def objIdToString (n : Nat) : String := String.mk (toHexChars 24 n)

/-- Whether a character is a hex digit (`0-9`, `a-f`, `A-F`). -/
def isHexChar (c : Char) : Bool :=
  (48 ≤ c.toNat && c.toNat ≤ 57) || (97 ≤ c.toNat && c.toNat ≤ 102) ||
  (65 ≤ c.toNat && c.toNat ≤ 70)

/-- Value of a hex digit character. -/
def hexVal (c : Char) : Nat :=
  if 48 ≤ c.toNat && c.toNat ≤ 57 then c.toNat - 48
  else if 97 ≤ c.toNat && c.toNat ≤ 102 then c.toNat - 87
  else c.toNat - 55

/-- `ObjectId(task_id)`: succeeds exactly on 24-character hex strings,
raising `InvalidId` (modelled as `none`) otherwise. -/
def parseObjectId (s : String) : Option Nat :=
  if s.length == 24 && s.toList.all isHexChar then
    some (s.toList.foldl (fun a c => 16 * a + hexVal c) 0)
  else none

/-- The Mongo query documents this code base builds: an optional `_id`
equality, optional `priority`/`status` equalities, and optional
`due_date` `$lte` / `$gte` bounds. -/
structure Query where
  qOid : Option Nat := none
  qPriority : Option String := none
  qStatus : Option String := none
  qDueLte : Option Int := none
  qDueGte : Option Int := none

/-- An absent query key imposes no constraint. -/
def optSat {α : Type} (o : Option α) (pr : α → Bool) : Bool :=
  match o with
  | none => true
  | some a => pr a

/-- Mongo's matching of one of this code base's query documents against a
stored document. -/
def matchesQuery (q : Query) (d : Doc) : Bool :=
  optSat q.qOid (fun i => d.oid == i) &&
  optSat q.qPriority (fun v => d.priority == v) &&
  optSat q.qStatus (fun v => d.status == v) &&
  optSat q.qDueLte (fun t => decide (d.due_date ≤ t)) &&
  optSat q.qDueGte (fun t => decide (t ≤ d.due_date))

/-- `collection.find(query)`: every stored document matching the query, in
store order. -/
def findDocs (st : Store) (q : Query) : List Doc :=
  st.docs.filter (matchesQuery q)

/-- The filter dictionary built by the routing layer and passed to
`TaskRepository.get_all`. -/
structure Filters where
  priority : Option String := none
  status : Option String := none
  due_date_before : Option Int := none
  due_date_after : Option Int := none

namespace TaskRepository

/-- `TaskRepository.create`: `insert_one` with the store-generated `_id`,
then `find_one` on the inserted id.  Returns the inserted document and the
new store. -/
def create (st : Store) (task_data : Validated) (created_at : Int) : Doc × Store :=
  let doc : Doc :=
    { oid := st.nextId, title := task_data.title, description := task_data.description,
      priority := task_data.priority, status := task_data.status,
      due_date := task_data.due_date, created_at := created_at, tags := task_data.tags }
  (doc, { nextId := st.nextId + 1, docs := st.docs ++ [doc] })

/-- The query `TaskRepository.get_all` builds from its filter dictionary. -/
def queryOfFilters (f : Filters) : Query :=
  { qPriority := f.priority, qStatus := f.status,
    qDueLte := f.due_date_before, qDueGte := f.due_date_after }

/-- `TaskRepository.get_all(filters)`; `none` is the `filters=None` default. -/
def get_all (st : Store) (filters : Option Filters := none) : List Doc :=
  match filters with
  | none => findDocs st {}
  | some f => findDocs st (queryOfFilters f)

/-- `TaskRepository.get_by_id`: parse the id (returning `None` on any
exception via the bare `except`), then `find_one({"_id": oid})`. -/
def get_by_id (st : Store) (task_id : String) : Option Doc :=
  match parseObjectId task_id with
  | none => none
  | some oid => st.docs.find? (fun d => d.oid == oid)

/-- `{"$set": update_data}` applied to a document: every field present in
the validated partial payload is overwritten, the rest (including `_id`
and `created_at`, which a validated payload can never contain) are kept. -/
def applySet (u : Payload) (d : Doc) : Doc :=
  { d with title := u.title.getD d.title, description := u.description.getD d.description,
           priority := u.priority.getD d.priority, status := u.status.getD d.status,
           due_date := u.due_date.getD d.due_date, tags := u.tags.getD d.tags }

/-- `update_one({"_id": oid}, {"$set": update_data})`: applies `$set` to the
first matching document; the reported `modified_count` is 1 exactly when
that document actually changed. -/
def setFirst (oid : Nat) (u : Payload) : List Doc → List Doc × Nat
  | [] => ([], 0)
  | d :: rest =>
      if d.oid == oid then
        (applySet u d :: rest, if applySet u d == d then 0 else 1)
      else
        let r := setFirst oid u rest
        (d :: r.1, r.2)

/-- `TaskRepository.update`: parse the id (any exception yields `None`),
run `update_one`, and only when `modified_count > 0` re-fetch and return
the updated document. -/
def update (st : Store) (task_id : String) (update_data : Payload) : Option Doc × Store :=
  match parseObjectId task_id with
  | none => (none, st)
  | some oid =>
      let r := setFirst oid update_data st.docs
      let st' : Store := { st with docs := r.1 }
      if r.2 > 0 then (get_by_id st' task_id, st') else (none, st')

/-- `TaskRepository.delete`: parse the id (any exception yields `False`),
`delete_one({"_id": oid})` removes the first matching document, and the
result reports `deleted_count > 0`. -/
def delete (st : Store) (task_id : String) : Bool × Store :=
  match parseObjectId task_id with
  | none => (false, st)
  | some oid =>
      if st.docs.any (fun d => d.oid == oid) then
        (true, { st with docs := st.docs.eraseP (fun d => d.oid == oid) })
      else (false, st)

/-- `TaskRepository.get_due_tasks(hours)`: documents with
`due_date` between `now` and `now + timedelta(hours=hours)` inclusive
(timestamps in seconds, so the bound is `now + hours * 3600`). -/
def get_due_tasks (st : Store) (now : Int) (hours : Int) : List Doc :=
  let due_time := now + hours * 3600
  findDocs st { qDueGte := some now, qDueLte := some due_time }

end TaskRepository

/-- Injective stand-in for marshmallow's ISO-8601 rendering of a stored
datetime on dump. -/
def renderDT (t : Int) : String := toString t

/-- A task as serialized by `schema.dump`: `_id` replaced by the string
`id`, datetimes rendered, all other fields carried through. -/
structure DumpedTask where
  id : String
  title : String
  description : String
  priority : String
  status : String
  due_date : String
  created_at : String
  tags : List String
deriving DecidableEq

/-- `schema.dump` of a stored document (after the repository's
`_id`-to-`id` conversion). -/
def dumpDoc (d : Doc) : DumpedTask :=
  { id := objIdToString d.oid, title := d.title, description := d.description,
    priority := d.priority, status := d.status, due_date := renderDT d.due_date,
    created_at := renderDT d.created_at, tags := d.tags }

/-- A response body returned by the service layer, before JSON encoding. -/
inductive Body where
  | task : DumpedTask → Body
  | tasks : List DumpedTask → Body
  | errorFields : List (String × String) → Body
  | errorMsg : String → Body
  | empty : Body
deriving DecidableEq

namespace TaskService

/-- `TaskService.create_task`: default `tags` to `[]` when absent, then
`schema.load` (full), stamp `created_at = now`, insert, and dump; a
`ValidationError` yields the field-error map with 400. -/
def create_task (st : Store) (now : Int) (data : Payload) : Body × Nat × Store :=
  let data := { data with tags := some (data.tags.getD []) }
  match loadFull data with
  | .ok validated_data =>
      let r := TaskRepository.create st validated_data now
      (Body.task (dumpDoc r.1), 201, r.2)
  | .error err => (Body.errorFields err, 400, st)

/-- `TaskService.get_all_tasks`. -/
def get_all_tasks (st : Store) (filters : Option Filters := none) : Body × Nat :=
  (Body.tasks ((TaskRepository.get_all st filters).map dumpDoc), 200)

/-- `TaskService.get_task_by_id`. -/
def get_task_by_id (st : Store) (task_id : String) : Body × Nat :=
  match TaskRepository.get_by_id st task_id with
  | some task => (Body.task (dumpDoc task), 200)
  | none => (Body.errorMsg "Task not found", 404)

/-- `TaskService.update_task`: default `tags` to `[]` when absent, then
`schema.load(partial=True)`, then `TaskRepository.update`; `None` from the
repository yields 404, a `ValidationError` yields 400. -/
def update_task (st : Store) (task_id : String) (data : Payload) : Body × Nat × Store :=
  let data := { data with tags := some (data.tags.getD []) }
  match loadPartial data with
  | .ok update_data =>
      let r := TaskRepository.update st task_id update_data
      match r.1 with
      | some updated_task => (Body.task (dumpDoc updated_task), 200, r.2)
      | none => (Body.errorMsg "Task not found", 404, r.2)
  | .error err => (Body.errorFields err, 400, st)

/-- `TaskService.delete_task`. -/
def delete_task (st : Store) (task_id : String) : Body × Nat × Store :=
  let r := TaskRepository.delete st task_id
  if r.1 then (Body.empty, 204, r.2) else (Body.errorMsg "Task not found", 404, r.2)

/-- `TaskService.get_due_tasks`. -/
def get_due_tasks (st : Store) (now : Int) (hours : Int) : Body × Nat :=
  (Body.tasks ((TaskRepository.get_due_tasks st now hours).map dumpDoc), 200)

/-- Python's `csv` quoting predicate (QUOTE_MINIMAL): a field is quoted
when it contains the delimiter, the quote character, or a line break. -/
def needsQuote (s : String) : Bool :=
  s.toList.any (fun c => c == ',' || c == '"' || c == '\n' || c == '\r')

/-- One CSV cell under QUOTE_MINIMAL: quoted with doubled inner quotes
when needed, verbatim otherwise. -/
def csvField (s : String) : String :=
  if needsQuote s then
    "\"" ++ String.mk (s.toList.flatMap (fun c => if c == '"' then ['"', '"'] else [c])) ++ "\""
  else s

/-- The header row written by `csv.DictWriter(..., fieldnames=self.schema.fields.keys())`. -/
def csvHeader : String :=
  String.intercalate "," (schemaFieldNames.map csvField) ++ "\r\n"

/-- One data row: the dumped task's values in schema field order, with
`tags` already flattened to a single `","`-joined string by the service. -/
def csvRow (t : DumpedTask) : String :=
  String.intercalate ","
    ([t.id, t.title, t.description, t.priority, t.status, t.due_date, t.created_at,
      String.intercalate "," t.tags].map csvField) ++ "\r\n"

/-- `TaskService.get_tasks_csv`: fetch all tasks with no filter, dump each,
join each task's `tags` with `","`, and render header plus one row per
task. -/
def get_tasks_csv (st : Store) : String :=
  let tasks := TaskRepository.get_all st
  csvHeader ++ String.join (tasks.map (fun task => csvRow (dumpDoc task)))

end TaskService

/-- The conjunction-of-optional-constraints filtering contract, written
from the spec's words: `priority`/`status` by exact match,
`due_date_before` an inclusive upper bound, `due_date_after` an inclusive
lower bound, absent keys unconstrained. -/
def specMatches (f : Filters) (d : Doc) : Bool :=
  (match f.priority with | none => true | some v => d.priority == v) &&
  (match f.status with | none => true | some v => d.status == v) &&
  (match f.due_date_before with | none => true | some t => decide (d.due_date ≤ t)) &&
  (match f.due_date_after with | none => true | some t => decide (t ≤ d.due_date))

/-! ### Helper lemmas -/

theorem toHexChars_length (w : Nat) : ∀ n : Nat, (toHexChars w n).length = w := by
  induction w with
  | zero => intro n; rfl
  | succ w ih => intro n; simp [toHexChars, ih]

theorem objIdToString_ne_empty (n : Nat) : objIdToString n ≠ "" := by
  intro h
  have h2 : (toHexChars 24 n).length = 0 := by
    have := congrArg (fun s => s.data.length) h
    simpa [objIdToString] using this
  rw [toHexChars_length] at h2
  exact absurd h2 (by decide)

theorem mem_unique_oid {docs : List Doc} {d e : Doc}
    (huniq : docs.Pairwise (fun a b => a.oid ≠ b.oid))
    (hd : d ∈ docs) (he : e ∈ docs) (h : e.oid = d.oid) : e = d := by
  induction docs with
  | nil => cases hd
  | cons a l ih =>
      rcases List.pairwise_cons.mp huniq with ⟨ha, hl⟩
      rcases List.mem_cons.mp hd with hd1 | hd2 <;> rcases List.mem_cons.mp he with he1 | he2
      · rw [hd1, he1]
      · subst hd1; exact absurd h.symm (ha e he2)
      · subst he1; exact absurd h (ha d hd2)
      · exact ih hl hd2 he2

theorem setFirst_no_match {oid : Nat} {u : Payload} {docs : List Doc}
    (h : ∀ e ∈ docs, e.oid ≠ oid) :
    TaskRepository.setFirst oid u docs = (docs, 0) := by
  induction docs with
  | nil => rfl
  | cons a l ih =>
      have ha : a.oid ≠ oid := h a (List.mem_cons_self a l)
      have hl : ∀ e ∈ l, e.oid ≠ oid := fun e he => h e (List.mem_cons_of_mem a he)
      simp [TaskRepository.setFirst, beq_iff_eq, ha, ih hl]

theorem setFirst_eq {oid : Nat} {u : Payload} {docs : List Doc} {d : Doc}
    (huniq : docs.Pairwise (fun a b => a.oid ≠ b.oid))
    (hd : d ∈ docs) (hoid : d.oid = oid) :
    TaskRepository.setFirst oid u docs =
      (docs.map (fun e => if e.oid = oid then TaskRepository.applySet u e else e),
       if TaskRepository.applySet u d = d then 0 else 1) := by
  induction docs with
  | nil => cases hd
  | cons a l ih =>
      rcases List.pairwise_cons.mp huniq with ⟨ha, hl⟩
      by_cases hcase : a.oid = oid
      · have had : a = d := by
          rcases List.mem_cons.mp hd with h1 | h2
          · exact h1.symm
          · exact absurd (hcase.trans hoid.symm) (ha d h2)
        have hmapl : l.map (fun e => if e.oid = oid then TaskRepository.applySet u e else e) = l := by
          conv_rhs => rw [← List.map_id l]
          refine List.map_congr_left fun e he => ?_
          have hne : e.oid ≠ oid := fun hE => ha e he (hcase.trans hE.symm)
          simp [hne]
        subst had
        simp [TaskRepository.setFirst, beq_iff_eq, hcase, hmapl]
      · have hdl : d ∈ l := by
          rcases List.mem_cons.mp hd with h1 | h2
          · exact absurd (h1 ▸ hoid) hcase
          · exact h2
        simp [TaskRepository.setFirst, beq_iff_eq, hcase, ih hl hdl]

theorem applySet_oid (u : Payload) (d : Doc) :
    (TaskRepository.applySet u d).oid = d.oid := rfl

theorem find?_oid_unique {docs : List Doc} {d : Doc} {oid : Nat}
    (huniq : docs.Pairwise (fun a b => a.oid ≠ b.oid))
    (hd : d ∈ docs) (hoid : d.oid = oid) :
    docs.find? (fun e => e.oid == oid) = some d := by
  induction docs with
  | nil => cases hd
  | cons a l ih =>
      rcases List.pairwise_cons.mp huniq with ⟨ha, hl⟩
      by_cases hcase : a.oid = oid
      · have had : a = d := by
          rcases List.mem_cons.mp hd with h1 | h2
          · exact h1.symm
          · exact absurd (hcase.trans hoid.symm) (ha d h2)
        have hbeq : (d.oid == oid) = true := by simp [hoid]
        simp [List.find?, had, hbeq]
      · have hdl : d ∈ l := by
          rcases List.mem_cons.mp hd with h1 | h2
          · exact absurd (h1 ▸ hoid) hcase
          · exact h2
        have hbeq : (a.oid == oid) = false := by simp [hcase]
        simp [List.find?, hbeq, ih hl hdl]

theorem eraseP_oid_eq_erase {docs : List Doc} {d : Doc}
    (huniq : docs.Pairwise (fun a b => a.oid ≠ b.oid))
    (hd : d ∈ docs) :
    docs.eraseP (fun e => e.oid == d.oid) = docs.erase d := by
  induction docs with
  | nil => cases hd
  | cons a l ih =>
      rcases List.pairwise_cons.mp huniq with ⟨ha, hl⟩
      by_cases hcase : a.oid = d.oid
      · have had : a = d := by
          rcases List.mem_cons.mp hd with h1 | h2
          · exact h1.symm
          · exact absurd hcase (ha d h2)
        subst had
        simp [List.eraseP_cons, List.erase_cons, beq_iff_eq]
      · have hdl : d ∈ l := by
          rcases List.mem_cons.mp hd with h1 | h2
          · exact absurd (h1 ▸ rfl) hcase
          · exact h2
        have hne : a ≠ d := fun h => hcase (h ▸ rfl)
        simp [List.eraseP_cons, List.erase_cons, beq_iff_eq, hcase, hne, ih hl hdl]

theorem erase_no_oid {docs : List Doc} {d : Doc}
    (huniq : docs.Pairwise (fun a b => a.oid ≠ b.oid))
    (hd : d ∈ docs) :
    ∀ e ∈ docs.erase d, e.oid ≠ d.oid := by
  intro e he
  have hnodup : docs.Nodup := huniq.imp (fun h heq => h (congrArg Doc.oid heq))
  have h2 := (List.Nodup.mem_erase_iff hnodup).mp he
  exact fun hoid => h2.1 (mem_unique_oid huniq hd h2.2 hoid)

theorem requiredErrors_eq_nil {p : Payload} :
    requiredErrors p = [] ↔
      p.title.isSome ∧ p.description.isSome ∧ p.priority.isSome ∧
      p.status.isSome ∧ p.due_date.isSome := by
  simp [requiredErrors, List.append_eq_nil, ite_eq_right_iff,
        Option.isNone_iff_eq_none, Option.isSome_iff_ne_none]

theorem enumErrors_eq_nil {p : Payload} :
    enumErrors p = [] ↔
      (∀ v, p.priority = some v → v ∈ priorityEnum) ∧
      (∀ v, p.status = some v → v ∈ statusEnum) := by
  cases hp : p.priority <;> cases hs : p.status <;>
    simp only [enumErrors, hp, hs, List.append_eq_nil] <;>
    constructor <;> intro h <;> simp_all [ite_eq_left_iff]

/-- The `tags` defaulting the service performs before validation leaves
every other payload field, and the unknown keys, unchanged. -/
theorem fieldErrors_tags_default (forUpdate : Bool) (p : Payload) :
    fieldErrors forUpdate { p with tags := some (p.tags.getD []) } = fieldErrors forUpdate p := by
  rfl

/-! ### Claim theorems -/

/-- C2: for every string that is not a well-formed ObjectId,
`get_task_by_id`, `update_task` (on a payload passing partial validation)
and `delete_task` all return the "Task not found" body with status 404
rather than a distinct invalid-identifier result, and the store is left
unchanged. -/
theorem by_id_ops_malformed_id_not_found
    (st : Store) (task_id : String) (p : Payload)
    (hbad : parseObjectId task_id = none)
    (hvalid : fieldErrors true { p with tags := some (p.tags.getD []) } = []) :
    TaskService.get_task_by_id st task_id = (Body.errorMsg "Task not found", 404) ∧
    TaskService.update_task st task_id p = (Body.errorMsg "Task not found", 404, st) ∧
    TaskService.delete_task st task_id = (Body.errorMsg "Task not found", 404, st) := by
  refine ⟨?_, ?_, ?_⟩ <;>
    simp [TaskService.get_task_by_id, TaskService.update_task, TaskService.delete_task,
          TaskRepository.get_by_id, TaskRepository.update, TaskRepository.delete,
          loadPartial, hbad, hvalid]

/-- Witness for C2 at a malformed identifier and the empty payload. -/
theorem by_id_ops_malformed_id_not_found_witness :
    TaskService.get_task_by_id { nextId := 0, docs := [] } "xyz" =
      (Body.errorMsg "Task not found", 404) ∧
    TaskService.update_task { nextId := 0, docs := [] } "xyz" {} =
      (Body.errorMsg "Task not found", 404, { nextId := 0, docs := [] }) ∧
    TaskService.delete_task { nextId := 0, docs := [] } "xyz" =
      (Body.errorMsg "Task not found", 404, { nextId := 0, docs := [] }) :=
  by_id_ops_malformed_id_not_found { nextId := 0, docs := [] } "xyz" {}
    (by decide) (by decide)

/-- C4: for every creation payload passing full validation, `create_task`
appends exactly one new document to the store, stamps its `created_at`
with the request time, defaults `tags` to `[]` when the payload omitted
them, and returns the serialized task with status 201 and a non-empty
`id`. -/
theorem create_task_valid (st : Store) (now : Int) (p : Payload)
    (hvalid : fieldErrors false { p with tags := some (p.tags.getD []) } = []) :
    ∃ doc : Doc,
      TaskService.create_task st now p =
        (Body.task (dumpDoc doc), 201, { nextId := st.nextId + 1, docs := st.docs ++ [doc] }) ∧
      doc.created_at = now ∧
      doc.tags = p.tags.getD [] ∧
      (dumpDoc doc).id ≠ "" ∧
      (dumpDoc doc).created_at = renderDT now ∧
      (p.tags = none → (dumpDoc doc).tags = []) := by
  refine ⟨{ oid := st.nextId, title := p.title.getD "", description := p.description.getD "",
            priority := p.priority.getD "", status := p.status.getD "",
            due_date := p.due_date.getD 0, created_at := now, tags := p.tags.getD [] },
          ?_, rfl, rfl, objIdToString_ne_empty st.nextId, rfl, ?_⟩
  · simp [TaskService.create_task, loadFull, hvalid, TaskRepository.create]
  · intro h; simp [dumpDoc, h]

/-- Witness for C4 at a concrete valid payload omitting `tags`. -/
theorem create_task_valid_witness :
    ∃ doc : Doc,
      TaskService.create_task { nextId := 0, docs := [] } 5
          { title := some "T", description := some "D", priority := some "high",
            status := some "TODO", due_date := some 9 } =
        (Body.task (dumpDoc doc), 201, { nextId := 1, docs := [doc] }) ∧
      doc.created_at = 5 ∧
      doc.tags = (none : Option (List String)).getD [] ∧
      (dumpDoc doc).id ≠ "" ∧
      (dumpDoc doc).created_at = renderDT 5 ∧
      ((none : Option (List String)) = none → (dumpDoc doc).tags = []) :=
  create_task_valid { nextId := 0, docs := [] } 5
    { title := some "T", description := some "D", priority := some "high",
      status := some "TODO", due_date := some 9 } (by decide)

/-- C5: for every creation payload missing a required field or carrying an
out-of-enum `priority` or `status`, `create_task` returns a non-empty
field-error map with status 400 and leaves the store unchanged. -/
theorem create_task_invalid (st : Store) (now : Int) (p : Payload)
    (hbad : p.title = none ∨ p.description = none ∨ p.priority = none ∨
            p.status = none ∨ p.due_date = none ∨
            (∃ v, p.priority = some v ∧ v ∉ priorityEnum) ∨
            (∃ v, p.status = some v ∧ v ∉ statusEnum)) :
    ∃ errs, errs ≠ [] ∧
      TaskService.create_task st now p = (Body.errorFields errs, 400, st) := by
  have hne : fieldErrors false { p with tags := some (p.tags.getD []) } ≠ [] := by
    rw [fieldErrors_tags_default]
    intro h
    simp only [fieldErrors, Bool.false_eq_true, if_false, List.append_eq_nil] at h
    obtain ⟨⟨hreq, henum⟩, _⟩ := h
    rw [requiredErrors_eq_nil] at hreq
    rw [enumErrors_eq_nil] at henum
    rcases hbad with h | h | h | h | h | ⟨v, hv, hmem⟩ | ⟨v, hv, hmem⟩
    · rw [h] at hreq; exact absurd hreq.1 (by decide)
    · rw [h] at hreq; exact absurd hreq.2.1 (by decide)
    · rw [h] at hreq; exact absurd hreq.2.2.1 (by decide)
    · rw [h] at hreq; exact absurd hreq.2.2.2.1 (by decide)
    · rw [h] at hreq; exact absurd hreq.2.2.2.2 (by decide)
    · exact hmem (henum.1 v hv)
    · exact hmem (henum.2 v hv)
  refine ⟨fieldErrors false { p with tags := some (p.tags.getD []) }, hne, ?_⟩
  simp [TaskService.create_task, loadFull, if_neg hne]

/-- Witness for C5 at a payload missing every required field. -/
theorem create_task_invalid_witness :
    ∃ errs, errs ≠ [] ∧
      TaskService.create_task { nextId := 0, docs := [] } 0 { priority := some "wrong" } =
        (Body.errorFields errs, 400, { nextId := 0, docs := [] }) :=
  create_task_invalid { nextId := 0, docs := [] } 0 { priority := some "wrong" }
    (Or.inl rfl)

/-- C10: a creation or update payload carrying any key outside the
schema's load fields — in particular the dump-only `id` and `created_at`
keys — fails validation with an "Unknown field." entry for each such key,
returns status 400, and leaves the store unchanged, so a client can never
set or alter the server-generated fields. -/
theorem dump_only_fields_unsettable (st : Store) (now : Int) (task_id : String) (p : Payload)
    (hextra : p.extraKeys ≠ []) :
    (∃ errs, errs ≠ [] ∧ (∀ k ∈ p.extraKeys, (k, "Unknown field.") ∈ errs) ∧
       TaskService.create_task st now p = (Body.errorFields errs, 400, st)) ∧
    (∃ errs, errs ≠ [] ∧ (∀ k ∈ p.extraKeys, (k, "Unknown field.") ∈ errs) ∧
       TaskService.update_task st task_id p = (Body.errorFields errs, 400, st)) := by
  obtain ⟨k0, hk0⟩ := List.exists_mem_of_ne_nil p.extraKeys hextra
  have hmemf : ∀ (b : Bool), ∀ k ∈ p.extraKeys, (k, "Unknown field.") ∈ fieldErrors b p := by
    intro b k hk
    have hU : (k, "Unknown field.") ∈ unknownErrors p :=
      List.mem_map_of_mem (fun k => (k, "Unknown field.")) hk
    exact List.mem_append_right _ hU
  have hne1 : fieldErrors false p ≠ [] := List.ne_nil_of_mem (hmemf false k0 hk0)
  have hne2 : fieldErrors true p ≠ [] := List.ne_nil_of_mem (hmemf true k0 hk0)
  refine ⟨⟨fieldErrors false p, List.ne_nil_of_mem (hmemf false k0 hk0), hmemf false, ?_⟩,
          ⟨fieldErrors true p, List.ne_nil_of_mem (hmemf true k0 hk0), hmemf true, ?_⟩⟩
  · simp [TaskService.create_task, loadFull, if_neg hne1, fieldErrors_tags_default]
  · simp [TaskService.update_task, loadPartial, if_neg hne2, fieldErrors_tags_default]

/-- Witness for C10 at a payload carrying the dump-only keys. -/
theorem dump_only_fields_unsettable_witness :
    (∃ errs, errs ≠ [] ∧
       (∀ k ∈ (Payload.mk none none none none none none ["id", "created_at"]).extraKeys,
          (k, "Unknown field.") ∈ errs) ∧
       TaskService.create_task { nextId := 0, docs := [] } 0
           (Payload.mk none none none none none none ["id", "created_at"]) =
         (Body.errorFields errs, 400, { nextId := 0, docs := [] })) ∧
    (∃ errs, errs ≠ [] ∧
       (∀ k ∈ (Payload.mk none none none none none none ["id", "created_at"]).extraKeys,
          (k, "Unknown field.") ∈ errs) ∧
       TaskService.update_task { nextId := 0, docs := [] } "000000000000000000000000"
           (Payload.mk none none none none none none ["id", "created_at"]) =
         (Body.errorFields errs, 400, { nextId := 0, docs := [] })) :=
  dump_only_fields_unsettable { nextId := 0, docs := [] } 0 "000000000000000000000000"
    (Payload.mk none none none none none none ["id", "created_at"]) (by decide)

/-- C6: `get_all_tasks` returns exactly the stored tasks satisfying the
conjunction of the present filter keys (`priority`/`status` exact,
`due_date_before`/`due_date_after` inclusive bounds, absent keys
unconstrained), every stored task when no filters are given, and for
`{priority := "high", status := "TODO"}` exactly the tasks matching both
predicates. -/
theorem get_all_tasks_filtering (st : Store) (f : Filters) :
    TaskService.get_all_tasks st (some f) =
      (Body.tasks ((st.docs.filter (specMatches f)).map dumpDoc), 200) ∧
    TaskService.get_all_tasks st none = (Body.tasks (st.docs.map dumpDoc), 200) ∧
    TaskService.get_all_tasks st
        (some { priority := some "high", status := some "TODO" }) =
      (Body.tasks ((st.docs.filter
          (fun d => d.priority == "high" && d.status == "TODO")).map dumpDoc), 200) := by
  have hq : ∀ (g : Filters) (d : Doc),
      matchesQuery (TaskRepository.queryOfFilters g) d = specMatches g d := by
    rintro ⟨p1, s1, b1, a1⟩ d
    cases p1 <;> cases s1 <;> cases b1 <;> cases a1 <;> rfl
  have hall : ∀ d ∈ st.docs, matchesQuery {} d = true := fun d _ => rfl
  have hht : ∀ d ∈ st.docs,
      matchesQuery (TaskRepository.queryOfFilters
        { priority := some "high", status := some "TODO" }) d =
      (d.priority == "high" && d.status == "TODO") := fun d _ => by
    simp [matchesQuery, TaskRepository.queryOfFilters, optSat]
  refine ⟨?_, ?_, ?_⟩
  · simp only [TaskService.get_all_tasks, TaskRepository.get_all, findDocs]
    rw [List.filter_congr (fun d _ => hq f d)]
  · simp only [TaskService.get_all_tasks, TaskRepository.get_all, findDocs]
    rw [List.filter_eq_self.mpr (fun d hd => by rw [hall d hd])]
  · simp only [TaskService.get_all_tasks, TaskRepository.get_all, findDocs]
    rw [List.filter_congr hht]

/-- C7: `get_due_tasks` returns exactly the stored tasks whose `due_date`
lies in the closed interval from `now` to `now + hours` (in seconds,
`now + hours * 3600`), both endpoints inclusive; tasks due strictly after
the upper bound or strictly before `now` are excluded. -/
theorem get_due_tasks_interval (st : Store) (now : Int) (hours : Int) :
    TaskService.get_due_tasks st now hours =
      (Body.tasks ((st.docs.filter (fun d =>
          decide (now ≤ d.due_date) && decide (d.due_date ≤ now + hours * 3600))).map
        dumpDoc), 200) ∧
    (∀ d : Doc, now + hours * 3600 < d.due_date →
       d ∉ st.docs.filter (fun d =>
          decide (now ≤ d.due_date) && decide (d.due_date ≤ now + hours * 3600))) ∧
    (∀ d : Doc, d.due_date < now →
       d ∉ st.docs.filter (fun d =>
          decide (now ≤ d.due_date) && decide (d.due_date ≤ now + hours * 3600))) := by
  have hpred : ∀ d ∈ st.docs,
      matchesQuery { qDueGte := some now, qDueLte := some (now + hours * 3600) } d =
      (decide (now ≤ d.due_date) && decide (d.due_date ≤ now + hours * 3600)) :=
    fun d _ => Bool.and_comm _ _
  refine ⟨?_, ?_, ?_⟩
  · simp only [TaskService.get_due_tasks, TaskRepository.get_due_tasks, findDocs]
    rw [List.filter_congr hpred]
  · intro d hlt hmem
    have := (List.mem_filter.mp hmem).2
    simp at this
    exact absurd this.2 (not_le.mpr hlt)
  · intro d hlt hmem
    have := (List.mem_filter.mp hmem).2
    simp at this
    exact absurd this.1 (not_le.mpr hlt)

/-- Witness for C7 at a store holding one task inside the window, one due
25 hours ahead and one due an hour ago, with `hours = 24`. -/
theorem get_due_tasks_interval_witness :
    (TaskService.get_due_tasks
        { nextId := 4,
          docs := [{ oid := 1, title := "a", description := "a", priority := "low",
                     status := "TODO", due_date := 7200, created_at := 0, tags := [] },
                   { oid := 2, title := "b", description := "b", priority := "low",
                     status := "TODO", due_date := 25 * 3600, created_at := 0, tags := [] },
                   { oid := 3, title := "c", description := "c", priority := "low",
                     status := "TODO", due_date := -3600, created_at := 0, tags := [] }] }
        0 24 =
      (Body.tasks (([{ oid := 1, title := "a", description := "a", priority := "low",
                       status := "TODO", due_date := 7200, created_at := 0,
                       tags := [] }] : List Doc).map dumpDoc), 200)) ∧
    ({ oid := 2, title := "b", description := "b", priority := "low", status := "TODO",
       due_date := 25 * 3600, created_at := 0, tags := [] } : Doc) ∉
      (([{ oid := 1, title := "a", description := "a", priority := "low",
           status := "TODO", due_date := 7200, created_at := 0, tags := [] },
         { oid := 2, title := "b", description := "b", priority := "low",
           status := "TODO", due_date := 25 * 3600, created_at := 0, tags := [] },
         { oid := 3, title := "c", description := "c", priority := "low",
           status := "TODO", due_date := -3600, created_at := 0, tags := [] }] : List Doc).filter
        (fun d => decide ((0 : Int) ≤ d.due_date) &&
                  decide (d.due_date ≤ (0 : Int) + 24 * 3600))) := by
  have h := get_due_tasks_interval
    { nextId := 4,
      docs := [{ oid := 1, title := "a", description := "a", priority := "low",
                 status := "TODO", due_date := 7200, created_at := 0, tags := [] },
               { oid := 2, title := "b", description := "b", priority := "low",
                 status := "TODO", due_date := 25 * 3600, created_at := 0, tags := [] },
               { oid := 3, title := "c", description := "c", priority := "low",
                 status := "TODO", due_date := -3600, created_at := 0, tags := [] }] }
    0 24
  refine ⟨?_, h.2.1 _ (by decide)⟩
  rw [h.1]
  norm_num

/-- C8: the CSV export fetches every stored task unfiltered, renders the
fixed header row `id,title,description,priority,status,due_date,created_at,tags`,
emits one row per task in schema field order with the task's tags joined
by `","` into a single cell (quoted per standard CSV rules when it embeds
the delimiter), and for a store holding one task tagged `["a", "b"]` the
tags cell decodes to `a,b`. -/
theorem export_csv_format (st : Store) :
    TaskService.get_tasks_csv st =
      "id,title,description,priority,status,due_date,created_at,tags\r\n" ++
      String.join (st.docs.map (fun d => TaskService.csvRow (dumpDoc d))) ∧
    (∀ d : Doc, TaskService.csvRow (dumpDoc d) =
      String.intercalate ","
        ([objIdToString d.oid, d.title, d.description, d.priority, d.status,
          renderDT d.due_date, renderDT d.created_at,
          String.intercalate "," d.tags].map TaskService.csvField) ++ "\r\n") ∧
    TaskService.get_tasks_csv
        { nextId := 2,
          docs := [{ oid := 1, title := "T", description := "D", priority := "high",
                     status := "TODO", due_date := 0, created_at := 0,
                     tags := ["a", "b"] }] } =
      "id,title,description,priority,status,due_date,created_at,tags\r\n" ++
      "000000000000000000000001,T,D,high,TODO,0,0,\"a,b\"\r\n" := by
  refine ⟨?_, fun d => rfl, by decide⟩
  simp only [TaskService.get_tasks_csv, TaskRepository.get_all, findDocs]
  rw [List.filter_eq_self.mpr (fun d hd => by rw [show matchesQuery {} d = true from rfl])]
  rw [show TaskService.csvHeader =
    "id,title,description,priority,status,due_date,created_at,tags\r\n" from by decide]

/-- C9: deleting an existing task removes exactly that record and returns
an empty body with status 204; deleting again with the same identifier
returns the "Task not found" body with status 404 and leaves the store
unchanged. -/
theorem delete_task_twice (st : Store) (task_id : String) (d : Doc) (oid : Nat)
    (huniq : st.docs.Pairwise (fun a b => a.oid ≠ b.oid))
    (hparse : parseObjectId task_id = some oid)
    (hd : d ∈ st.docs) (hoid : d.oid = oid) :
    TaskService.delete_task st task_id =
      (Body.empty, 204, { st with docs := st.docs.erase d }) ∧
    TaskService.delete_task { st with docs := st.docs.erase d } task_id =
      (Body.errorMsg "Task not found", 404, { st with docs := st.docs.erase d }) := by
  subst hoid
  have hany : st.docs.any (fun e => e.oid == d.oid) = true :=
    List.any_eq_true.mpr ⟨d, hd, by simp⟩
  have herase := eraseP_oid_eq_erase huniq hd
  have hnone : (st.docs.erase d).any (fun e => e.oid == d.oid) = false := by
    rw [List.any_eq_false]
    intro e he
    simp only [beq_iff_eq]
    exact erase_no_oid huniq hd e he
  constructor
  · simp [TaskService.delete_task, TaskRepository.delete, hparse, hany, herase]
  · simp [TaskService.delete_task, TaskRepository.delete, hparse, hnone]

/-- Witness for C9 at a one-task store. -/
theorem delete_task_twice_witness :
    TaskService.delete_task
        { nextId := 2,
          docs := [{ oid := 1, title := "T", description := "D", priority := "low",
                     status := "TODO", due_date := 0, created_at := 0, tags := [] }] }
        "000000000000000000000001" =
      (Body.empty, 204,
       { nextId := 2,
         docs := ([{ oid := 1, title := "T", description := "D", priority := "low",
                     status := "TODO", due_date := 0, created_at := 0,
                     tags := [] }] : List Doc).erase
           { oid := 1, title := "T", description := "D", priority := "low",
             status := "TODO", due_date := 0, created_at := 0, tags := [] } }) ∧
    TaskService.delete_task
        { nextId := 2,
          docs := ([{ oid := 1, title := "T", description := "D", priority := "low",
                      status := "TODO", due_date := 0, created_at := 0,
                      tags := [] }] : List Doc).erase
            { oid := 1, title := "T", description := "D", priority := "low",
              status := "TODO", due_date := 0, created_at := 0, tags := [] } }
        "000000000000000000000001" =
      (Body.errorMsg "Task not found", 404,
       { nextId := 2,
         docs := ([{ oid := 1, title := "T", description := "D", priority := "low",
                     status := "TODO", due_date := 0, created_at := 0,
                     tags := [] }] : List Doc).erase
           { oid := 1, title := "T", description := "D", priority := "low",
             status := "TODO", due_date := 0, created_at := 0, tags := [] } }) :=
  delete_task_twice
    { nextId := 2,
      docs := [{ oid := 1, title := "T", description := "D", priority := "low",
                 status := "TODO", due_date := 0, created_at := 0, tags := [] }] }
    "000000000000000000000001"
    { oid := 1, title := "T", description := "D", priority := "low",
      status := "TODO", due_date := 0, created_at := 0, tags := [] }
    1 (by simp) (by decide) (by simp) rfl

/-- After a successful id parse against a store with unique ids holding a
matching record, `TaskRepository.update` leaves the store with exactly the
matched record rewritten by `$set`. -/
theorem update_store_docs {st : Store} {task_id : String} {u : Payload} {oid : Nat} {d : Doc}
    (huniq : st.docs.Pairwise (fun a b => a.oid ≠ b.oid))
    (hparse : parseObjectId task_id = some oid)
    (hd : d ∈ st.docs) (hoid : d.oid = oid) :
    (TaskRepository.update st task_id u).2.docs =
      st.docs.map (fun e => if e.oid = oid then TaskRepository.applySet u e else e) := by
  simp only [TaskRepository.update, hparse]
  rw [@setFirst_eq oid u st.docs d huniq hd hoid]
  by_cases happ : TaskRepository.applySet u d = d <;> simp [happ]

/-- The store returned by `TaskService.update_task` on a payload passing
partial validation is the store returned by the repository update. -/
theorem update_task_store (st : Store) (task_id : String) (p : Payload)
    (hvalid : fieldErrors true { p with tags := some (p.tags.getD []) } = []) :
    (TaskService.update_task st task_id p).2.2 =
      (TaskRepository.update st task_id { p with tags := some (p.tags.getD []) }).2 := by
  have hload : loadPartial { p with tags := some (p.tags.getD []) } =
      .ok { p with tags := some (p.tags.getD []) } := by
    simp [loadPartial, hvalid]
  simp only [TaskService.update_task, hload]
  cases hfind : (TaskRepository.update st task_id
      { p with tags := some (p.tags.getD []) }).1 <;> simp [hfind]

/-- C1: for an existing record and a payload passing partial validation,
`update_task` rewrites the matched record so that exactly the supplied
fields take the payload's values, absent fields keep the stored values —
except `tags`, which is reset to `[]` whenever the payload omits it — and
`oid` (hence `id`) and `created_at` are never changed; all other records
are untouched. -/
theorem update_task_frame (st : Store) (task_id : String) (p : Payload) (d : Doc) (oid : Nat)
    (huniq : st.docs.Pairwise (fun a b => a.oid ≠ b.oid))
    (hparse : parseObjectId task_id = some oid)
    (hd : d ∈ st.docs) (hoid : d.oid = oid)
    (hvalid : fieldErrors true { p with tags := some (p.tags.getD []) } = []) :
    (TaskService.update_task st task_id p).2.2.docs =
      st.docs.map (fun e => if e.oid = oid then
        { oid := e.oid,
          title := p.title.getD e.title,
          description := p.description.getD e.description,
          priority := p.priority.getD e.priority,
          status := p.status.getD e.status,
          due_date := p.due_date.getD e.due_date,
          created_at := e.created_at,
          tags := p.tags.getD [] }
      else e) := by
  have happ : ∀ e : Doc,
      TaskRepository.applySet { p with tags := some (p.tags.getD []) } e =
      { oid := e.oid, title := p.title.getD e.title,
        description := p.description.getD e.description,
        priority := p.priority.getD e.priority,
        status := p.status.getD e.status,
        due_date := p.due_date.getD e.due_date,
        created_at := e.created_at,
        tags := p.tags.getD [] } := fun e => rfl
  rw [update_task_store st task_id p hvalid,
      update_store_docs huniq hparse hd hoid]
  exact List.map_congr_left fun e _ => by rw [happ e]

/-- C3: on a well-formed identifier and a payload passing partial
validation, `update_task` returns the "Task not found" body with status
404 both when no stored record carries the id and when the `$set` leaves
the matched record's field values identical (zero fields modified), the
store being unchanged in both cases; when the `$set` actually changes the
record it returns the serialized updated task with status 200. -/
theorem update_task_notfound_cases (st : Store) (task_id : String) (p : Payload) (oid : Nat)
    (huniq : st.docs.Pairwise (fun a b => a.oid ≠ b.oid))
    (hparse : parseObjectId task_id = some oid)
    (hvalid : fieldErrors true { p with tags := some (p.tags.getD []) } = []) :
    ((∀ e ∈ st.docs, e.oid ≠ oid) →
       TaskService.update_task st task_id p = (Body.errorMsg "Task not found", 404, st)) ∧
    (∀ d ∈ st.docs, d.oid = oid →
       (TaskRepository.applySet { p with tags := some (p.tags.getD []) } d = d →
          TaskService.update_task st task_id p = (Body.errorMsg "Task not found", 404, st)) ∧
       (TaskRepository.applySet { p with tags := some (p.tags.getD []) } d ≠ d →
          TaskService.update_task st task_id p =
            (Body.task (dumpDoc
               (TaskRepository.applySet { p with tags := some (p.tags.getD []) } d)),
             200,
             { st with docs := st.docs.map (fun e => if e.oid = oid then
                 TaskRepository.applySet { p with tags := some (p.tags.getD []) } e
               else e) }))) := by
  have hload : loadPartial { p with tags := some (p.tags.getD []) } =
      .ok { p with tags := some (p.tags.getD []) } := by
    simp [loadPartial, hvalid]
  constructor
  · intro hno
    have hset := @setFirst_no_match oid { p with tags := some (p.tags.getD []) } st.docs hno
    simp [TaskService.update_task, hload, TaskRepository.update, hparse, hset]
  · intro d hd hoid
    have hset := @setFirst_eq oid { p with tags := some (p.tags.getD []) } st.docs d
      huniq hd hoid
    constructor
    · intro happ
      have hmap_id : st.docs.map (fun e => if e.oid = oid then
          TaskRepository.applySet { p with tags := some (p.tags.getD []) } e else e) =
          st.docs := by
        conv_rhs => rw [← List.map_id st.docs]
        refine List.map_congr_left fun e he => ?_
        by_cases hE : e.oid = oid
        · have hed : e = d := mem_unique_oid huniq hd he (hE.trans hoid.symm)
          rw [if_pos hE, hed, happ]; rfl
        · rw [if_neg hE]; rfl
      simp [TaskService.update_task, hload, TaskRepository.update, hparse, hset, happ,
            hmap_id]
    · intro hne
      have hFoid : ∀ e : Doc,
          ((fun e => if e.oid = oid then
             TaskRepository.applySet { p with tags := some (p.tags.getD []) } e else e) e).oid
            = e.oid := by
        intro e; by_cases hE : e.oid = oid <;> simp [hE, applySet_oid]
      have huniq' : (st.docs.map (fun e => if e.oid = oid then
          TaskRepository.applySet { p with tags := some (p.tags.getD []) } e
          else e)).Pairwise (fun a b => a.oid ≠ b.oid) := by
        rw [List.pairwise_map]
        exact huniq.imp fun {a b} h => by rw [hFoid a, hFoid b]; exact h
      have hmem := List.mem_map_of_mem (fun e => if e.oid = oid then
        TaskRepository.applySet { p with tags := some (p.tags.getD []) } e else e) hd
      have hmem2 : TaskRepository.applySet { p with tags := some (p.tags.getD []) } d ∈
          st.docs.map (fun e => if e.oid = oid then
            TaskRepository.applySet { p with tags := some (p.tags.getD []) } e else e) := by
        simpa [hoid] using hmem
      have hfind := find?_oid_unique huniq' hmem2
        ((applySet_oid { p with tags := some (p.tags.getD []) } d).trans hoid)
      simp [TaskService.update_task, hload, TaskRepository.update, hparse, hset, hne,
            TaskRepository.get_by_id, hfind]

/-- Witness for C1: updating only `title` on a one-task store rewrites the
title, resets `tags` to `[]`, and keeps every other field. -/
theorem update_task_frame_witness :
    (TaskService.update_task
        { nextId := 2,
          docs := [{ oid := 1, title := "T", description := "D", priority := "low",
                     status := "TODO", due_date := 3, created_at := 7, tags := ["x"] }] }
        "000000000000000000000001" { title := some "T2" }).2.2.docs =
      ([{ oid := 1, title := "T", description := "D", priority := "low",
          status := "TODO", due_date := 3, created_at := 7, tags := ["x"] }] : List Doc).map
        (fun e => if e.oid = 1 then
          { oid := e.oid, title := "T2", description := e.description,
            priority := e.priority, status := e.status, due_date := e.due_date,
            created_at := e.created_at, tags := [] }
        else e) :=
  update_task_frame
    { nextId := 2,
      docs := [{ oid := 1, title := "T", description := "D", priority := "low",
                 status := "TODO", due_date := 3, created_at := 7, tags := ["x"] }] }
    "000000000000000000000001" { title := some "T2" }
    { oid := 1, title := "T", description := "D", priority := "low",
      status := "TODO", due_date := 3, created_at := 7, tags := ["x"] }
    1 (by simp) (by decide) (by simp) rfl (by decide)

/-- Witness for C3: a no-op update on an existing task yields 404 exactly
as an update on a missing task does, and a real change yields 200. -/
theorem update_task_notfound_cases_witness :
    TaskService.update_task
        { nextId := 2,
          docs := [{ oid := 1, title := "T", description := "D", priority := "low",
                     status := "TODO", due_date := 3, created_at := 7, tags := [] }] }
        "000000000000000000000001" {} =
      (Body.errorMsg "Task not found", 404,
       { nextId := 2,
         docs := [{ oid := 1, title := "T", description := "D", priority := "low",
                    status := "TODO", due_date := 3, created_at := 7, tags := [] }] }) ∧
    TaskService.update_task
        { nextId := 2,
          docs := [{ oid := 1, title := "T", description := "D", priority := "low",
                     status := "TODO", due_date := 3, created_at := 7, tags := [] }] }
        "000000000000000000000001" { title := some "T2" } =
      (Body.task (dumpDoc
         { oid := 1, title := "T2", description := "D", priority := "low",
           status := "TODO", due_date := 3, created_at := 7, tags := [] }),
       200,
       { nextId := 2,
         docs := [{ oid := 1, title := "T2", description := "D", priority := "low",
                    status := "TODO", due_date := 3, created_at := 7, tags := [] }] }) ∧
    TaskService.update_task { nextId := 0, docs := [] }
        "000000000000000000000001" {} =
      (Body.errorMsg "Task not found", 404, { nextId := 0, docs := [] }) :=
  ⟨((update_task_notfound_cases
      { nextId := 2,
        docs := [{ oid := 1, title := "T", description := "D", priority := "low",
                   status := "TODO", due_date := 3, created_at := 7, tags := [] }] }
      "000000000000000000000001" {} 1 (by simp) (by decide) (by decide)).2
      { oid := 1, title := "T", description := "D", priority := "low",
        status := "TODO", due_date := 3, created_at := 7, tags := [] }
      (by simp) rfl).1 (by decide),
   ((update_task_notfound_cases
      { nextId := 2,
        docs := [{ oid := 1, title := "T", description := "D", priority := "low",
                   status := "TODO", due_date := 3, created_at := 7, tags := [] }] }
      "000000000000000000000001" { title := some "T2" } 1
      (by simp) (by decide) (by decide)).2
      { oid := 1, title := "T", description := "D", priority := "low",
        status := "TODO", due_date := 3, created_at := 7, tags := [] }
      (by simp) rfl).2 (by decide),
   (update_task_notfound_cases { nextId := 0, docs := [] }
      "000000000000000000000001" {} 1 (by simp) (by decide) (by decide)).1
      (by simp)⟩

end TaskTracker
